import Mathlib

/-!
Verification of the multi-step browser-automation agent in
`rust-mcp-server` (files `src/agent/executor.rs`, `src/agent/prompt.rs`,
`src/browser/automation.rs`, `src/models/action.rs`, `src/models/context.rs`).

The external world (browser surface via chromiumoxide, the OpenAI-backed
`LLMClient.generate_json`, and the serde_json parser/serializer) is modelled
as a record of arbitrary state-passing functions (`World`), so every theorem
quantifies over all possible behaviours of the browser and of the two
oracles.  Rust `String` is Lean `String`; Rust's `str::trim` is given an
explicit executable model (`rustTrim`); `usize`/`u32` are `Nat` with wrapping
made explicit where the source casts to `i32`; fallible calls return
`Except String`.
-/

namespace InteractUI

/-- Semantic selector, from `src/models/context.rs` (`SemanticSelector`). -/
structure SemanticSelector where
  role : String
  name : Option String
  description : Option String
  css_fallback : Option String
deriving DecidableEq, Inhabited

/-- Scroll direction, from `src/models/action.rs` (`ScrollDirection`). -/
inductive ScrollDirection where
  | Up
  | Down
  | Left
  | Right
deriving DecidableEq, Inhabited

/-- Action request, from `src/models/action.rs` (`ActionRequest`).  The Rust
variant `Type` is rendered `TypeText` because `Type` is a Lean keyword.
`u32`/`u64` fields are `Nat`. -/
inductive ActionRequest where
  | Click (selector : SemanticSelector)
  | TypeText (selector : SemanticSelector) (text : String)
  | Scroll (direction : ScrollDirection) (amount : Option Nat)
  | WaitForElement (selector : SemanticSelector) (timeout_ms : Option Nat)
  | Navigate (url : String)
deriving DecidableEq, Inhabited

/-- Smart-feedback response, from `src/models/action.rs` (`ActionResponse`).
The `details` field is `Option<serde_json::Value>` in the source; the JSON
value is opaque to all code under verification, so it is modelled as an
opaque `String`. -/
structure ActionResponse where
  success : Bool
  error : Option String
  reason : Option String
  suggestion : Option String
  details : Option String
deriving DecidableEq, Inhabited

/-- Constructor `ActionResponse::success()` from `src/models/action.rs`
(renamed: `success` is already the field projection in Lean). -/
def ActionResponse.successResponse : ActionResponse :=
  { success := true, error := none, reason := none, suggestion := none,
    details := none }

/-- Constructor `ActionResponse::error_with_suggestion` from
`src/models/action.rs`. -/
def ActionResponse.error_with_suggestion (error reason suggestion : String) :
    ActionResponse :=
  { success := false, error := some error, reason := some reason,
    suggestion := some suggestion, details := none }

/-- Constructor `ActionResponse::element_not_visible` from
`src/models/action.rs`. -/
def ActionResponse.element_not_visible (element_name role : String) :
    ActionResponse :=
  ActionResponse.error_with_suggestion "element_not_visible"
    ("Element \x27" ++ element_name ++ "\x27 (" ++ role ++
      ") was found but is below viewport.")
    "call scroll_down() or wait_for_element()"

/-- Constructor `ActionResponse::element_not_found` from
`src/models/action.rs`. -/
def ActionResponse.element_not_found (selector : SemanticSelector) :
    ActionResponse :=
  ActionResponse.error_with_suggestion "element_not_found"
    ("Could not find " ++ selector.role ++ " with name \x27" ++
      selector.name.getD "unknown" ++ "\x27")
    "try get_context() to see available elements"

/-- Constructor `ActionResponse::element_not_enabled` from
`src/models/action.rs`. -/
def ActionResponse.element_not_enabled (element_name : String) :
    ActionResponse :=
  ActionResponse.error_with_suggestion "element_not_enabled"
    ("Element \x27" ++ element_name ++ "\x27 is disabled")
    "wait for element to become enabled or check if preconditions are met"

/-- Viewport, from `src/models/context.rs`.  `scroll_x`/`scroll_y` are `f64`
in the source; they only ever flow into prompt text, and are modelled as
`Int`. -/
structure Viewport where
  width : Nat
  height : Nat
  scroll_x : Int
  scroll_y : Int
deriving DecidableEq, Inhabited

/-- Simplified element, from `src/models/context.rs` (`SimplifiedElement`). -/
structure SimplifiedElement where
  id : Nat
  display : String
  selector : SemanticSelector
  in_viewport : Bool
deriving DecidableEq, Inhabited

/-- Constructor `SimplifiedElement::new` from `src/models/context.rs`. -/
def SimplifiedElement.new (id : Nat) (role : String) (name : Option String)
    (in_viewport : Bool) : SimplifiedElement :=
  let display := match name with
    | some n => "[" ++ toString id ++ "] " ++ role ++ "(\x27" ++ n ++ "\x27)"
    | none => "[" ++ toString id ++ "] " ++ role
  { id := id, display := display,
    selector := { role := role, name := name, description := none,
                  css_fallback := none },
    in_viewport := in_viewport }

/-- Simplified UI context, from `src/models/context.rs` (`UIContext`). -/
structure UIContext where
  url : String
  title : String
  viewport : Viewport
  elements : List SimplifiedElement
deriving DecidableEq, Inhabited

/-- Executable model of Rust's `str::trim`: strip whitespace characters from
both ends of the string. -/
def rustTrim (s : String) : String :=
  String.mk (((s.data.dropWhile Char.isWhitespace).reverse.dropWhile
    Char.isWhitespace).reverse)

/-- Body of the element-list loop shared verbatim by `build_user_prompt` and
`build_retry_prompt` in `src/agent/prompt.rs`: one line
`format!("{} - in_viewport: {}\n", elem.display, elem.in_viewport)`. -/
def elementLine (elem : SimplifiedElement) : String :=
  elem.display ++ " - in_viewport: " ++ toString elem.in_viewport ++ "\n"

/-- The `elements_str` accumulation loop of `src/agent/prompt.rs` (both
builders contain the identical loop). -/
def elementsBlock (elements : List SimplifiedElement) : String :=
  elements.foldl (fun acc elem => acc ++ elementLine elem) ""

/-- Function `build_system_prompt` from `src/agent/prompt.rs`.  Literal
braces and apostrophes of the Rust raw string are written with character
escapes. -/
def build_system_prompt : String :=
  "You are a UI automation agent that controls a web browser to accomplish user tasks.\n\nYour capabilities:\n1. You can see the current page context as an Accessibility Tree (AXTree)\n2. You can execute actions: click, type, scroll, wait_for_element, navigate\n3. You receive smart feedback when actions fail with suggestions for recovery\n\nAction Format (respond in JSON):\n\x7b\n  \"tool\": \"click\" | \"type\" | \"scroll\" | \"wait_for_element\" | \"navigate\",\n  \"role\": \"button\" | \"link\" | \"textbox\" | \"combobox\" | etc,\n  \"name\": \"element name from AXTree\",\n  \"text\": \"text to type (for type action)\",\n  \"direction\": \"up\" | \"down\" | \"left\" | \"right\" (for scroll),\n  \"amount\": number (for scroll, optional),\n  \"url\": \"URL to navigate to (for navigate)\"\n\x7d\n\nGuidelines:\n1. Always use semantic selectors (role + name) from the AXTree context\n2. Prefer elements that are in_viewport: true\n3. If an element is not in viewport, scroll to it first\n4. If an action fails, read the suggestion in the error response\n5. Be precise with element names - match exactly as shown in the AXTree\n\nExample AXTree format:\n[1] Button(\x27Login\x27) - in_viewport: true\n[2] Textbox(\x27Username\x27) - in_viewport: true\n[3] Textbox(\x27Password\x27) - in_viewport: false\n\nExample actions:\n- Click login button: \x7b\"tool\": \"click\", \"role\": \"button\", \"name\": \"Login\"\x7d\n- Type username: \x7b\"tool\": \"type\", \"role\": \"textbox\", \"name\": \"Username\", \"text\": \"john@example.com\"\x7d\n- Scroll to see password field: \x7b\"tool\": \"scroll\", \"direction\": \"down\", \"amount\": 300\x7d\n\nIMPORTANT: Respond ONLY with a single valid JSON action object. No explanations, no markdown, just JSON."

/-- Function `build_user_prompt` from `src/agent/prompt.rs`: renders page
state, the trimmed element list, and the task. -/
def build_user_prompt (context : UIContext) (task : String) : String :=
  let elements_str := elementsBlock context.elements
  "Current Page State:\nURL: " ++ context.url ++
    "\nTitle: " ++ context.title ++
    "\nViewport: " ++ toString context.viewport.width ++ "x" ++
    toString context.viewport.height ++
    " (scroll: " ++ toString context.viewport.scroll_x ++ ", " ++
    toString context.viewport.scroll_y ++
    ")\n\nAvailable Elements (Accessibility Tree):\n" ++
    rustTrim elements_str ++
    "\n\nYour Task: " ++ task ++
    "\n\nPlease provide the NEXT SINGLE ACTION to accomplish this task as a JSON object."

/-- Function `build_retry_prompt` from `src/agent/prompt.rs`: same context
block (without the viewport line), plus failed action, error and
suggestion. -/
def build_retry_prompt (context : UIContext) (task failed_action error_message
    suggestion : String) : String :=
  let elements_str := elementsBlock context.elements
  "Current Page State:\nURL: " ++ context.url ++
    "\nTitle: " ++ context.title ++
    "\n\nAvailable Elements (Accessibility Tree):\n" ++
    rustTrim elements_str ++
    "\n\nYour Task: " ++ task ++
    "\n\nPrevious Action Attempted:\n" ++ failed_action ++
    "\n\nThis action failed with error: " ++ error_message ++
    "\n\nSuggestion: " ++ suggestion ++
    "\n\nBased on this feedback, please provide the CORRECTED NEXT ACTION as a JSON object."

/-- Conversation-history step, from `src/agent/executor.rs`
(`ConversationStep`). -/
structure ConversationStep where
  step_number : Nat
  action_decided : ActionRequest
  action_result : ActionResponse
  context_after : UIContext
  llm_response : String
deriving DecidableEq, Inhabited

/-- Multi-step result, from `src/agent/executor.rs`
(`MultiStepExecutionResult`). -/
structure MultiStepExecutionResult where
  task_completed : Bool
  steps_taken : Nat
  max_steps : Nat
  steps : List ConversationStep
  final_context : Option UIContext
  error : Option String
  retries_count : Nat
deriving DecidableEq, Inhabited

/-- The local `CompletionResponse` struct deserialized inside
`AgentExecutor::is_task_complete`. -/
structure CompletionResponse where
  completed : Bool
  reason : String
deriving DecidableEq, Inhabited

/-- The external world of the executor: the browser surface
(`ContextExtractor::extract`, `BrowserAutomation::execute_action`), the
decision/completion oracle (`LLMClient::generate_json` — one shared client
serves both roles in the source), and the serde_json parser/serializer and
`Debug` formatter, which are external library code.  Stateful calls thread
an abstract world state `σ`, so the theorems below quantify over every
possible behaviour of these collaborators. -/
structure World (σ : Type) where
  extract : σ → σ × Except String UIContext
  generate : σ → String → String → σ × Except String String
  execAction : σ → ActionRequest → σ × Except String ActionResponse
  parseAction : String → Except String ActionRequest
  parseCompletion : String → Except String CompletionResponse
  serializeAction : ActionRequest → Except String String
  debugFmt : ActionRequest → String

/-- Serialization of a failed action for the retry prompt:
`serde_json::to_string(&action).unwrap_or_else(|_| format!("{:?}", action))`
(executor.rs lines 389-390 and 418-419). -/
def serializedAction (W : World σ) (action : ActionRequest) : String :=
  match W.serializeAction action with
  | Except.ok str => str
  | Except.error _ => W.debugFmt action

/-- Loop body of `AgentExecutor::try_action_with_retry` (executor.rs lines
349-432): `retry` is the current retry index, `remaining = max_retries -
retry` the number of indices still ahead (`retry < max_retries` iff
`remaining > 0`).  The source also keeps a `last_error` variable that is
written but never read; it is omitted.  The `Err` after the `for` loop
(line 434) is unreachable — every final iteration returns — and has no
counterpart here. -/
def tryActionLoop (W : World σ) (context : UIContext)
    (task system_prompt : String) (max_retries : Nat) (retry remaining : Nat)
    (current_prompt : String) (s : σ) :
    σ × Except String (ActionRequest × String × Nat) :=
  match W.generate s system_prompt current_prompt with
  | (s1, Except.error e) => (s1, Except.error e)
  | (s1, Except.ok llm_response) =>
    match W.parseAction llm_response with
    | Except.error e =>
      match remaining with
      | Nat.succ rem =>
        tryActionLoop W context task system_prompt max_retries (retry + 1) rem
          current_prompt s1
      | 0 => (s1, Except.error ("Failed to parse LLM response: " ++ e))
    | Except.ok action =>
      match W.execAction s1 action with
      | (s2, Except.ok result) =>
        if result.success then (s2, Except.ok (action, llm_response, retry))
        else
          let error_msg := result.error.getD (result.reason.getD "Action failed")
          match remaining with
          | Nat.succ rem =>
            let action_str := serializedAction W action
            let suggestion := result.suggestion.getD "Try a different approach"
            tryActionLoop W context task system_prompt max_retries (retry + 1)
              rem (build_retry_prompt context task action_str error_msg
                suggestion) s2
          | 0 =>
            (s2, Except.error ("Action failed after " ++ toString max_retries ++
              " retries: " ++ error_msg))
      | (s2, Except.error e) =>
        match remaining with
        | Nat.succ rem =>
          let action_str := serializedAction W action
          tryActionLoop W context task system_prompt max_retries (retry + 1)
            rem (build_retry_prompt context task action_str e
              "Check if the element exists and is interactable") s2
        | 0 => (s2, Except.error e)

/-- Function `AgentExecutor::try_action_with_retry` (executor.rs lines
337-438): runs the retry loop from index 0; on success returns the accepted
action, the raw oracle reply, and the number of retries consumed. -/
def try_action_with_retry (W : World σ) (context : UIContext)
    (task system_prompt initial_user_prompt : String) (max_retries : Nat)
    (s : σ) : σ × Except String (ActionRequest × String × Nat) :=
  tryActionLoop W context task system_prompt max_retries 0 max_retries
    initial_user_prompt s

/-- The completion-evaluation prompt built inside
`AgentExecutor::is_task_complete` (executor.rs lines 448-482), including the
per-step summary loop. -/
def completionPrompt (W : World σ) (context : UIContext) (task : String)
    (steps : List ConversationStep) : String :=
  let steps_summary := steps.foldl (fun acc step =>
    acc ++ "Step " ++ toString step.step_number ++ ": " ++
      W.debugFmt step.action_decided ++ " - " ++
      step.action_result.reason.getD (step.action_result.error.getD
        "completed") ++ "\n") ""
  "You are evaluating if a task has been completed.\n\nOriginal Task: " ++
    task ++ "\n\nSteps taken so far:\n" ++ steps_summary ++
    "\nCurrent page state:\nURL: " ++ context.url ++
    "\nTitle: " ++ context.title ++
    "\n\nQuestion: Has the task been fully completed based on the steps taken and current page state?\n\nRespond with a JSON object:\n\x7b\n  \"completed\": true or false,\n  \"reason\": \"brief explanation\"\n\x7d\n\nIMPORTANT: Respond ONLY with valid JSON."

/-- Function `AgentExecutor::is_task_complete` (executor.rs lines 441-507):
asks the completion oracle; a reply that fails to parse yields `Ok(false)`;
a failed oracle call propagates as an error (the `?` on line 487). -/
def is_task_complete (W : World σ) (context : UIContext) (task : String)
    (steps : List ConversationStep) (s : σ) : σ × Except String Bool :=
  match W.generate s "You are a task completion evaluator."
      (completionPrompt W context task steps) with
  | (s1, Except.error e) => (s1, Except.error e)
  | (s1, Except.ok response) =>
    match W.parseCompletion response with
    | Except.ok resp => (s1, Except.ok resp.completed)
    | Except.error _ => (s1, Except.ok false)

/-- The constant `ActionResponse` literal recorded into every
`ConversationStep` by `execute_multi_step` (executor.rs lines 289-295) in
place of the response the browser actually returned. -/
def recordedActionResult : ActionResponse :=
  { success := true, error := none,
    reason := some "Action executed successfully", suggestion := none,
    details := none }

/-- The `for step_num in 1..=max_steps` loop of
`AgentExecutor::execute_multi_step` (executor.rs lines 226-332).
`remaining` counts the iterations still to run (`max_steps - step_num + 1`
at the head of an iteration); when it reaches 0 the loop has fallen through
and lines 317-332 build the budget-exhaustion result.  The `?` behind
`is_task_complete` (line 301) propagates a completion-oracle failure as an
error of the whole run. -/
def stepLoop (W : World σ) (task : String) (max_steps max_retries : Nat) :
    Nat → Nat → List ConversationStep → Nat → σ →
    σ × Except String MultiStepExecutionResult
  | 0, _step_num, steps, total_retries, s =>
    let final := match W.extract s with
      | (sf, Except.ok c) => (sf, some c)
      | (sf, Except.error _) => (sf, none)
    (final.1, Except.ok
      { task_completed := false, steps_taken := max_steps,
        max_steps := max_steps, steps := steps, final_context := final.2,
        error := some ("Reached maximum steps (" ++ toString max_steps ++
          ") without completing task"),
        retries_count := total_retries })
  | Nat.succ rem, step_num, steps, total_retries, s =>
    match W.extract s with
    | (s1, Except.error e) =>
      (s1, Except.ok
        { task_completed := false, steps_taken := steps.length,
          max_steps := max_steps, steps := steps, final_context := none,
          error := some ("Failed to extract context at step " ++
            toString step_num ++ ": " ++ e),
          retries_count := total_retries })
    | (s1, Except.ok context) =>
      let system_prompt := build_system_prompt
      let user_prompt := build_user_prompt context task
      match try_action_with_retry W context task system_prompt user_prompt
          max_retries s1 with
      | (s2, Except.error e) =>
        (s2, Except.ok
          { task_completed := false, steps_taken := steps.length,
            max_steps := max_steps, steps := steps,
            final_context := some context,
            error := some ("Failed at step " ++ toString step_num ++
              " after retries: " ++ e),
            retries_count := total_retries })
      | (s2, Except.ok (action, llm_response, retries)) =>
        let total_retries2 := total_retries + retries
        let after := match W.extract s2 with
          | (sx, Except.ok c) => (sx, c)
          | (sx, Except.error _) => (sx, context)
        let newStep : ConversationStep :=
          { step_number := step_num, action_decided := action,
            action_result := recordedActionResult, context_after := after.2,
            llm_response := llm_response }
        let steps2 := steps ++ [newStep]
        match is_task_complete W after.2 task steps2 after.1 with
        | (s3, Except.error e) => (s3, Except.error e)
        | (s3, Except.ok true) =>
          (s3, Except.ok
            { task_completed := true, steps_taken := step_num,
              max_steps := max_steps, steps := steps2,
              final_context := some after.2, error := none,
              retries_count := total_retries2 })
        | (s3, Except.ok false) =>
          stepLoop W task max_steps max_retries rem (step_num + 1) steps2
            total_retries2 s3

/-- Function `AgentExecutor::execute_multi_step` (executor.rs lines
207-333): applies the defaults `max_steps = 20`, `max_retries_per_step = 3`
and runs the step loop from step 1 with empty history. -/
def execute_multi_step (W : World σ) (task : String)
    (max_steps_arg max_retries_arg : Option Nat) (s : σ) :
    σ × Except String MultiStepExecutionResult :=
  let max_steps := max_steps_arg.getD 20
  let max_retries_per_step := max_retries_arg.getD 3
  stepLoop W task max_steps max_retries_per_step max_steps 1 [] 0 s

/-- Rust's `as i32` cast applied to a `u32` value (modelled as a `Nat`):
truncate to 32 bits and reinterpret the top bit as sign. -/
def asI32 (n : Nat) : Int :=
  if n % 4294967296 < 2147483648 then ((n % 4294967296 : Nat) : Int)
  else ((n % 4294967296 : Nat) : Int) - 4294967296

/-- Rust `i32` negation with release-mode wrapping semantics (negating
`i32::MIN` yields `i32::MIN`). -/
def i32Neg (x : Int) : Int :=
  ((-x) + 2147483648) % 4294967296 - 2147483648

/-- The direction-to-delta mapping of `BrowserAutomation::scroll`
(automation.rs lines 191-196): the pair `(x, y)` passed to
`window.scrollBy`.  The source computes `amount as i32` and (for up/left)
`-(amount as i32)`, with `amount : u32`. -/
def scrollDeltas (direction : ScrollDirection) (amount : Nat) : Int × Int :=
  match direction with
  | ScrollDirection.Down => (0, asI32 amount)
  | ScrollDirection.Up => (0, i32Neg (asI32 amount))
  | ScrollDirection.Right => (asI32 amount, 0)
  | ScrollDirection.Left => (i32Neg (asI32 amount), 0)

/-- The `Scroll` arm of `BrowserAutomation::execute_action` (automation.rs
lines 87-89): `self.scroll(direction, amount.unwrap_or(300))`, here reduced
to the deltas that call produces. -/
def scrollDeltasDispatch (direction : ScrollDirection)
    (amount : Option Nat) : Int × Int :=
  scrollDeltas direction (amount.getD 300)

/-- The page-level operations `BrowserAutomation::click` and `::type_text`
depend on (automation.rs): element lookup, the two visibility/enabled probes
(each a JS evaluation that can fail, hence `Except`), and the raw
chromiumoxide element operations.  `ε` is the abstract element handle type,
`σ` the abstract page state. -/
structure PageOps (ε σ : Type) where
  find_element : σ → SemanticSelector → σ × Except String (Option ε)
  is_element_visible : σ → ε → σ × Except String Bool
  is_element_enabled : σ → ε → σ × Except String Bool
  click_element : σ → ε → σ × Except String Unit
  press_key : σ → ε → String → σ × Except String Unit
  type_str : σ → ε → String → σ × Except String Unit

/-- Function `BrowserAutomation::click` (automation.rs lines 98-136): find,
then check visibility, then check enabled-state, then click.  The `?` on the
probe calls and on `element.click()` propagates hard errors; the trailing
100ms settle sleep has no observable counterpart here. -/
def click (P : PageOps ε σ) (selector : SemanticSelector) (s : σ) :
    σ × Except String ActionResponse :=
  match P.find_element s selector with
  | (s1, Except.ok (some element)) =>
    match P.is_element_visible s1 element with
    | (s2, Except.error e) => (s2, Except.error e)
    | (s2, Except.ok is_visible) =>
      if !is_visible then
        (s2, Except.ok (ActionResponse.element_not_visible
          (selector.name.getD "unknown") selector.role))
      else
        match P.is_element_enabled s2 element with
        | (s3, Except.error e) => (s3, Except.error e)
        | (s3, Except.ok is_enabled) =>
          if !is_enabled then
            (s3, Except.ok (ActionResponse.element_not_enabled
              (selector.name.getD "unknown")))
          else
            match P.click_element s3 element with
            | (s4, Except.error e) => (s4, Except.error e)
            | (s4, Except.ok _) =>
              (s4, Except.ok ActionResponse.successResponse)
  | (s1, Except.ok none) =>
    (s1, Except.ok (ActionResponse.element_not_found selector))
  | (s1, Except.error e) =>
    (s1, Except.ok (ActionResponse.error_with_suggestion "execution_error"
      ("Failed to click: " ++ e)
      "try get_context() to verify element exists"))

/-- Function `BrowserAutomation::type_text` (automation.rs lines 139-185):
same find/visible/enabled sequence, then focus-click, `End`, select-all
(`Control+a` on non-macOS targets, the configuration modelled here),
`Backspace`, and the text itself. -/
def type_text (P : PageOps ε σ) (selector : SemanticSelector) (text : String)
    (s : σ) : σ × Except String ActionResponse :=
  match P.find_element s selector with
  | (s1, Except.ok (some element)) =>
    match P.is_element_visible s1 element with
    | (s2, Except.error e) => (s2, Except.error e)
    | (s2, Except.ok is_visible) =>
      if !is_visible then
        (s2, Except.ok (ActionResponse.element_not_visible
          (selector.name.getD "unknown") selector.role))
      else
        match P.is_element_enabled s2 element with
        | (s3, Except.error e) => (s3, Except.error e)
        | (s3, Except.ok is_enabled) =>
          if !is_enabled then
            (s3, Except.ok (ActionResponse.element_not_enabled
              (selector.name.getD "unknown")))
          else
            match P.click_element s3 element with
            | (s4, Except.error e) => (s4, Except.error e)
            | (s4, Except.ok _) =>
              match P.press_key s4 element "End" with
              | (s5, Except.error e) => (s5, Except.error e)
              | (s5, Except.ok _) =>
                match P.press_key s5 element "Control+a" with
                | (s6, Except.error e) => (s6, Except.error e)
                | (s6, Except.ok _) =>
                  match P.press_key s6 element "Backspace" with
                  | (s7, Except.error e) => (s7, Except.error e)
                  | (s7, Except.ok _) =>
                    match P.type_str s7 element text with
                    | (s8, Except.error e) => (s8, Except.error e)
                    | (s8, Except.ok _) =>
                      (s8, Except.ok ActionResponse.successResponse)
  | (s1, Except.ok none) =>
    (s1, Except.ok (ActionResponse.element_not_found selector))
  | (s1, Except.error e) =>
    (s1, Except.ok (ActionResponse.error_with_suggestion "execution_error"
      ("Failed to type: " ++ e)
      "try get_context() to verify element exists and is a text input"))

/-- Instrumentation wrapper: same world, with a counter on the state that
increments at every oracle call (`generate_json`).  Used to count the oracle
attempts a run makes; all other operations pass through unchanged. -/
def countingWorld (W : World σ) : World (σ × Nat) :=
  { extract := fun p =>
      match W.extract p.1 with
      | (s1, r) => ((s1, p.2), r)
    generate := fun p sys user =>
      match W.generate p.1 sys user with
      | (s1, r) => ((s1, p.2 + 1), r)
    execAction := fun p a =>
      match W.execAction p.1 a with
      | (s1, r) => ((s1, p.2), r)
    parseAction := W.parseAction
    parseCompletion := W.parseCompletion
    serializeAction := W.serializeAction
    debugFmt := W.debugFmt }

/-- Specification device for retry accounting: replays the control flow of
`stepLoop` and returns the list of retry counts returned by the step engine
for the successful steps of the run, in order.  A step on which
`try_action_with_retry` fails contributes nothing, mirroring the fact that
the source only adds `retries` to `total_retries` in the `Ok` branch
(executor.rs lines 258-261). -/
def stepRetryList (W : World σ) (task : String) (max_steps max_retries : Nat) :
    Nat → Nat → List ConversationStep → σ → List Nat
  | 0, _step_num, _steps, _s => []
  | Nat.succ rem, step_num, steps, s =>
    match W.extract s with
    | (_, Except.error _) => []
    | (s1, Except.ok context) =>
      let system_prompt := build_system_prompt
      let user_prompt := build_user_prompt context task
      match try_action_with_retry W context task system_prompt user_prompt
          max_retries s1 with
      | (_, Except.error _) => []
      | (s2, Except.ok (action, llm_response, retries)) =>
        let after := match W.extract s2 with
          | (sx, Except.ok c) => (sx, c)
          | (sx, Except.error _) => (sx, context)
        let newStep : ConversationStep :=
          { step_number := step_num, action_decided := action,
            action_result := recordedActionResult, context_after := after.2,
            llm_response := llm_response }
        let steps2 := steps ++ [newStep]
        match is_task_complete W after.2 task steps2 after.1 with
        | (_, Except.error _) => [retries]
        | (_, Except.ok true) => [retries]
        | (s3, Except.ok false) =>
          retries :: stepRetryList W task max_steps max_retries rem
            (step_num + 1) steps2 s3

/-- Concrete empty page context used by the witness runs. -/
def ctx0 : UIContext :=
  { url := "u", title := "t",
    viewport := { width := 1, height := 1, scroll_x := 0, scroll_y := 0 },
    elements := [] }

/-- Concrete action used by the witness runs. -/
def act0 : ActionRequest := ActionRequest.Navigate "x"

/-- A structured failure response with no error, reason or suggestion. -/
def respFail : ActionResponse :=
  { success := false, error := none, reason := none, suggestion := none,
    details := none }

/-- Witness world (state = number of oracle calls): every collaborator
succeeds, every action is accepted, and the completion oracle immediately
reports the task complete. -/
def Wfull : World Nat :=
  { extract := fun s => (s, Except.ok ctx0)
    generate := fun s _sys _user => (s + 1, Except.ok "g")
    execAction := fun s _a => (s, Except.ok ActionResponse.successResponse)
    parseAction := fun _t => Except.ok act0
    parseCompletion := fun _t =>
      Except.ok { completed := true, reason := "done" }
    serializeAction := fun _a => Except.ok "ser"
    debugFmt := fun _a => "dbg" }

/-- Counterexample world for the completion-oracle transport failure: the
first oracle call (the decision) succeeds, every later one (the completion
check) fails at the transport level. -/
def Wc2 : World Nat :=
  { extract := fun s => (s, Except.ok ctx0)
    generate := fun s _sys _user =>
      (s + 1, if s = 0 then Except.ok "g"
        else Except.error "completion transport down")
    execAction := fun s _a => (s, Except.ok ActionResponse.successResponse)
    parseAction := fun _t => Except.ok act0
    parseCompletion := fun _t => Except.error "unparseable"
    serializeAction := fun _a => Except.ok "ser"
    debugFmt := fun _a => "dbg" }

/-- Counterexample world for retry accounting: every decision parses, but
the browser rejects every action with a bare `success=false` response. -/
def Wc3 : World Nat :=
  { extract := fun s => (s, Except.ok ctx0)
    generate := fun s _sys _user => (s + 1, Except.ok "g")
    execAction := fun s _a => (s, Except.ok respFail)
    parseAction := fun _t => Except.ok act0
    parseCompletion := fun _t => Except.error "unparseable"
    serializeAction := fun _a => Except.ok "ser"
    debugFmt := fun _a => "dbg" }

/-- Witness world for the parse-failure path: the oracle always answers,
but no answer ever parses as an action. -/
def WparseFail : World Nat :=
  { extract := fun s => (s, Except.ok ctx0)
    generate := fun s _sys _user => (s + 1, Except.ok "bad")
    execAction := fun s _a => (s, Except.ok ActionResponse.successResponse)
    parseAction := fun _t => Except.error "not json"
    parseCompletion := fun _t => Except.error "unparseable"
    serializeAction := fun _a => Except.ok "ser"
    debugFmt := fun _a => "dbg" }

instance {ε α : Type} [DecidableEq ε] [DecidableEq α] :
    DecidableEq (Except ε α) := fun x y =>
  match x, y with
  | Except.ok a, Except.ok b =>
    if h : a = b then isTrue (by rw [h])
    else isFalse (fun hh => h (Except.ok.inj hh))
  | Except.error a, Except.error b =>
    if h : a = b then isTrue (by rw [h])
    else isFalse (fun hh => h (Except.error.inj hh))
  | Except.ok _, Except.error _ => isFalse (fun hh => Except.noConfusion hh)
  | Except.error _, Except.ok _ => isFalse (fun hh => Except.noConfusion hh)

/-- The single history step of the `Wfull` witness run. -/
def stepW : ConversationStep :=
  { step_number := 1, action_decided := act0,
    action_result := recordedActionResult, context_after := ctx0,
    llm_response := "g" }

/-- Expected result of the `Wfull` run with default budgets. -/
def rFull : MultiStepExecutionResult :=
  { task_completed := true, steps_taken := 1, max_steps := 20,
    steps := [stepW], final_context := some ctx0, error := none,
    retries_count := 0 }

/-- Expected result of the `Wfull` run at the `max_steps = 0` boundary. -/
def rBoundary : MultiStepExecutionResult :=
  { task_completed := false, steps_taken := 0, max_steps := 0, steps := [],
    final_context := some ctx0,
    error := some "Reached maximum steps (0) without completing task",
    retries_count := 0 }

/-- Expected result of the `Wc3` run: the only step consumes both available
retries and fails, yet `retries_count` is 0. -/
def rC3 : MultiStepExecutionResult :=
  { task_completed := false, steps_taken := 0, max_steps := 1, steps := [],
    final_context := some ctx0,
    error := some
      "Failed at step 1 after retries: Action failed after 2 retries: Action failed",
    retries_count := 0 }

/-- Expected result of the `WparseFail` run. -/
def rParseFail : MultiStepExecutionResult :=
  { task_completed := false, steps_taken := 0, max_steps := 1, steps := [],
    final_context := some ctx0,
    error := some
      "Failed at step 1 after retries: Failed to parse LLM response: not json",
    retries_count := 0 }

/-- Helper: budget invariant of the step loop, generalised over the loop
state.  `steps.length + remaining = max_steps` and `step_num =
steps.length + 1` hold at the loop head and are preserved. -/
theorem stepLoop_budget {σ : Type} (W : World σ) (task : String)
    (max_steps max_retries : Nat) (remaining : Nat) :
    ∀ (step_num : Nat) (steps : List ConversationStep)
      (total_retries : Nat) (s s' : σ) (r : MultiStepExecutionResult),
      steps.length + remaining = max_steps →
      step_num = steps.length + 1 →
      stepLoop W task max_steps max_retries remaining step_num steps
        total_retries s = (s', Except.ok r) →
      r.steps_taken ≤ r.max_steps ∧ r.steps.length = r.steps_taken ∧
        r.max_steps = max_steps := by
  induction remaining with
  | zero =>
    intro step_num steps total_retries s s' r hlen hnum h
    simp only [stepLoop] at h
    rw [Prod.mk.injEq] at h
    obtain ⟨h1, h2⟩ := h
    cases h2
    refine ⟨?_, ?_, ?_⟩ <;> dsimp only <;> omega
  | succ rem ih =>
    intro step_num steps total_retries s s' r hlen hnum h
    simp only [stepLoop] at h
    split at h
    · rw [Prod.mk.injEq] at h
      obtain ⟨h1, h2⟩ := h
      cases h2
      refine ⟨?_, ?_, ?_⟩ <;> dsimp only <;> omega
    · split at h
      · rw [Prod.mk.injEq] at h
        obtain ⟨h1, h2⟩ := h
        cases h2
        refine ⟨?_, ?_, ?_⟩ <;> dsimp only <;> omega
      · split at h
        · exact absurd h (by simp)
        · rw [Prod.mk.injEq] at h
          obtain ⟨h1, h2⟩ := h
          cases h2
          refine ⟨?_, ?_, ?_⟩ <;>
            simp only [List.length_append, List.length_cons,
              List.length_nil] <;> omega
        · exact ih (step_num + 1) _ _ _ s' r
            (by simp only [List.length_append, List.length_cons,
              List.length_nil]; omega)
            (by simp only [List.length_append, List.length_cons,
              List.length_nil]; omega) h

/-- C1: on every return path of `execute_multi_step` (context-extraction
failure, step-engine failure, completion, budget exhaustion), for all
`max_steps` and `max_retries_per_step` values including `max_steps = 0`, the
returned `MultiStepExecutionResult` satisfies `steps_taken <= max_steps` and
`len(steps) == steps_taken`.  Quantified over every behaviour of the
browser surface and both oracles. -/
theorem C1_multi_step_budget_invariant {σ : Type} (W : World σ)
    (task : String) (max_steps_arg max_retries_arg : Option Nat) (s s' : σ)
    (r : MultiStepExecutionResult)
    (h : execute_multi_step W task max_steps_arg max_retries_arg s =
      (s', Except.ok r)) :
    r.steps_taken ≤ r.max_steps ∧ r.steps.length = r.steps_taken := by
  simp only [execute_multi_step] at h
  have hb := stepLoop_budget W task (max_steps_arg.getD 20)
    (max_retries_arg.getD 3) (max_steps_arg.getD 20) 1 [] 0 s s' r
    (by simp) (by simp) h
  exact ⟨hb.1, hb.2.1⟩

/-- Witness for C1 at the `max_steps = 0` boundary: the `Wfull` run with
`max_steps = some 0` takes the budget-exhaustion exit immediately and the
invariant holds. -/
theorem C1_witness :
    execute_multi_step Wfull "task" (some 0) none 0 =
      (0, Except.ok rBoundary) ∧
    rBoundary.steps_taken ≤ rBoundary.max_steps ∧
      rBoundary.steps.length = rBoundary.steps_taken :=
  ⟨by decide, C1_multi_step_budget_invariant Wfull "task" (some 0) none 0 0
    rBoundary (by decide)⟩

/-- Helper: every step the loop appends to the history carries the constant
`recordedActionResult`, so if the accumulator satisfies that invariant, so
does the history of any returned result. -/
theorem stepLoop_recorded {σ : Type} (W : World σ) (task : String)
    (max_steps max_retries : Nat) (remaining : Nat) :
    ∀ (step_num : Nat) (steps : List ConversationStep)
      (total_retries : Nat) (s s' : σ) (r : MultiStepExecutionResult),
      (∀ st ∈ steps, st.action_result = recordedActionResult) →
      stepLoop W task max_steps max_retries remaining step_num steps
        total_retries s = (s', Except.ok r) →
      ∀ st ∈ r.steps, st.action_result = recordedActionResult := by
  induction remaining with
  | zero =>
    intro step_num steps total_retries s s' r hinv h
    simp only [stepLoop] at h
    rw [Prod.mk.injEq] at h
    obtain ⟨h1, h2⟩ := h
    cases h2
    exact hinv
  | succ rem ih =>
    intro step_num steps total_retries s s' r hinv h
    simp only [stepLoop] at h
    split at h
    · rw [Prod.mk.injEq] at h
      obtain ⟨h1, h2⟩ := h
      cases h2
      exact hinv
    · split at h
      · rw [Prod.mk.injEq] at h
        obtain ⟨h1, h2⟩ := h
        cases h2
        exact hinv
      · split at h
        · exact absurd h (by simp)
        · rw [Prod.mk.injEq] at h
          obtain ⟨h1, h2⟩ := h
          cases h2
          intro st hst
          rcases List.mem_append.mp hst with hl | hr
          · exact hinv st hl
          · rcases List.mem_singleton.mp hr with rfl
            rfl
        · refine ih _ _ _ _ _ _ ?_ h
          intro st hst
          rcases List.mem_append.mp hst with hl | hr
          · exact hinv st hl
          · rcases List.mem_singleton.mp hr with rfl
            rfl

/-- C10: every `ConversationStep` in the history of a returned
`MultiStepExecutionResult` carries the constant success response (`success =
true`, `error = none`, `reason = "Action executed successfully"`,
`suggestion = none`, `details = none`) — `recordedActionResult` — rather
than the `ActionResponse` the browser actually produced, which
`try_action_with_retry` discards (it returns only action, raw reply and
retry count); consequently every recorded step has
`action_result.success = true`. -/
theorem C10_recorded_steps_constant_result {σ : Type} (W : World σ)
    (task : String) (max_steps_arg max_retries_arg : Option Nat) (s s' : σ)
    (r : MultiStepExecutionResult)
    (h : execute_multi_step W task max_steps_arg max_retries_arg s =
      (s', Except.ok r)) :
    ∀ st ∈ r.steps, st.action_result = recordedActionResult ∧
      st.action_result.success = true := by
  simp only [execute_multi_step] at h
  intro st hst
  have hrec := stepLoop_recorded W task (max_steps_arg.getD 20)
    (max_retries_arg.getD 3) (max_steps_arg.getD 20) 1 [] 0 s s' r
    (by intro st hst; cases hst) h st hst
  exact ⟨hrec, by rw [hrec]; rfl⟩

/-- Witness for C10: the default `Wfull` run records exactly one step and
its `action_result` is the constant `recordedActionResult`. -/
theorem C10_witness :
    execute_multi_step Wfull "task" none none 0 = (2, Except.ok rFull) ∧
      stepW ∈ rFull.steps ∧ stepW.action_result = recordedActionResult ∧
      stepW.action_result.success = true :=
  ⟨by decide, by decide,
    C10_recorded_steps_constant_result Wfull "task" none none 0 2 rFull
      (by decide) stepW (by decide)⟩

/-- Helper: retry accounting of the step loop — a returned result's
`retries_count` is the incoming accumulator plus the sum of the per-step
retry counts of the successful steps (`stepRetryList`); a step whose engine
call fails contributes nothing. -/
theorem stepLoop_retries {σ : Type} (W : World σ) (task : String)
    (max_steps max_retries : Nat) (remaining : Nat) :
    ∀ (step_num : Nat) (steps : List ConversationStep)
      (total_retries : Nat) (s s' : σ) (r : MultiStepExecutionResult),
      stepLoop W task max_steps max_retries remaining step_num steps
        total_retries s = (s', Except.ok r) →
      r.retries_count = total_retries +
        (stepRetryList W task max_steps max_retries remaining step_num steps
          s).sum := by
  induction remaining with
  | zero =>
    intro step_num steps total_retries s s' r h
    simp only [stepLoop] at h
    rw [Prod.mk.injEq] at h
    obtain ⟨h1, h2⟩ := h
    cases h2
    simp [stepRetryList]
  | succ rem ih =>
    intro step_num steps total_retries s s' r h
    rcases hE : W.extract s with ⟨s1, cE⟩
    cases cE with
    | error e =>
      simp only [stepLoop, stepRetryList, hE] at h ⊢
      rw [Prod.mk.injEq] at h
      obtain ⟨h1, h2⟩ := h
      cases h2
      simp
    | ok context =>
      rcases hT : try_action_with_retry W context task build_system_prompt
          (build_user_prompt context task) max_retries s1 with ⟨s2, cT⟩
      cases cT with
      | error e =>
        simp only [stepLoop, stepRetryList, hE, hT] at h ⊢
        rw [Prod.mk.injEq] at h
        obtain ⟨h1, h2⟩ := h
        cases h2
        simp
      | ok triple =>
        rcases triple with ⟨action, llm_response, retries⟩
        rcases hA : W.extract s2 with ⟨sx, cA⟩
        cases cA with
        | error e2 =>
          simp only [stepLoop, stepRetryList, hE, hT, hA] at h ⊢
          rcases hC : is_task_complete W context task
              (steps ++ [ConversationStep.mk step_num action
                recordedActionResult context llm_response]) sx with ⟨s3, cC⟩
          rw [hC] at h
          clear hC
          cases cC with
          | error e3 => simp at h
          | ok b =>
            cases b with
            | true =>
              dsimp only at h ⊢
              rw [Prod.mk.injEq] at h
              obtain ⟨h1, h2⟩ := h
              cases h2
              simp
            | false =>
              dsimp only at h ⊢
              have := ih _ _ _ _ _ _ h
              simp only [this, List.sum_cons]
              omega
        | ok contextAfter =>
          simp only [stepLoop, stepRetryList, hE, hT, hA] at h ⊢
          rcases hC : is_task_complete W contextAfter task
              (steps ++ [ConversationStep.mk step_num action
                recordedActionResult contextAfter llm_response]) sx with ⟨s3, cC⟩
          rw [hC] at h
          clear hC
          cases cC with
          | error e3 => simp at h
          | ok b =>
            cases b with
            | true =>
              dsimp only at h ⊢
              rw [Prod.mk.injEq] at h
              obtain ⟨h1, h2⟩ := h
              cases h2
              simp
            | false =>
              dsimp only at h ⊢
              have := ih _ _ _ _ _ _ h
              simp only [this, List.sum_cons]
              omega

/-- C3 (amended): `retries_count` equals the sum of the retry counts of the
*successful* steps of the run, in order (`stepRetryList` replays the run and
collects the retry count the step engine returned for each recorded step);
retries consumed by a step that ultimately fails are not included. -/
theorem C3_amended_retries_sum_successful {σ : Type} (W : World σ)
    (task : String) (max_steps_arg max_retries_arg : Option Nat) (s s' : σ)
    (r : MultiStepExecutionResult)
    (h : execute_multi_step W task max_steps_arg max_retries_arg s =
      (s', Except.ok r)) :
    r.retries_count = (stepRetryList W task (max_steps_arg.getD 20)
      (max_retries_arg.getD 3) (max_steps_arg.getD 20) 1 [] s).sum := by
  simp only [execute_multi_step] at h
  simpa using stepLoop_retries W task (max_steps_arg.getD 20)
    (max_retries_arg.getD 3) (max_steps_arg.getD 20) 1 [] 0 s s' r h

/-- Counterexample for C3 as stated: with `max_steps = 1`,
`max_retries_per_step = 2` and a browser that rejects every action
(`success=false`), the run's only step makes three oracle attempts —
`Wc3.generate` increments the state exactly once per oracle call and the
final state is 3 — i.e. the failing step consumes 2 retries, yet the
returned `retries_count` is 0, not 2: the retries of a step that ultimately
fails are dropped. -/
theorem C3_cex_failed_step_retries_dropped :
    execute_multi_step Wc3 "t" (some 1) (some 2) 0 = (3, Except.ok rC3) ∧
      rC3.retries_count = 0 ∧ rC3.retries_count ≠ 2 :=
  ⟨by decide, by decide, by decide⟩

/-- Witness for C3 (amended): on the default `Wfull` run the per-step list
is `[0]` and `retries_count` is its sum. -/
theorem C3_witness :
    execute_multi_step Wfull "task" none none 0 = (2, Except.ok rFull) ∧
      stepRetryList Wfull "task" 20 3 20 1 [] 0 = [0] ∧
      rFull.retries_count =
        (stepRetryList Wfull "task" 20 3 20 1 [] 0).sum :=
  ⟨by decide, by decide,
    C3_amended_retries_sum_successful Wfull "task" none none 0 2 rFull
      (by decide)⟩

/-- Helper: if the completion check never fails (the only `?` that escapes
the loop), the step loop always returns a structured `Ok` result. -/
theorem stepLoop_total {σ : Type} (W : World σ) (task : String)
    (max_steps max_retries : Nat)
    (hcomp : ∀ (c : UIContext) (t : String) (st : List ConversationStep)
      (s0 : σ), ∃ s1 b, is_task_complete W c t st s0 = (s1, Except.ok b))
    (remaining : Nat) :
    ∀ (step_num : Nat) (steps : List ConversationStep)
      (total_retries : Nat) (s : σ), ∃ r,
      (stepLoop W task max_steps max_retries remaining step_num steps
        total_retries s).2 = Except.ok r := by
  induction remaining with
  | zero =>
    intro step_num steps total_retries s
    exact ⟨_, rfl⟩
  | succ rem ih =>
    intro step_num steps total_retries s
    rcases hE : W.extract s with ⟨s1, cE⟩
    cases cE with
    | error e => exact ⟨_, by simp only [stepLoop, hE]; rfl⟩
    | ok context =>
      rcases hT : try_action_with_retry W context task build_system_prompt
          (build_user_prompt context task) max_retries s1 with ⟨s2, cT⟩
      cases cT with
      | error e => exact ⟨_, by simp only [stepLoop, hE, hT]; rfl⟩
      | ok triple =>
        rcases triple with ⟨action, llm_response, retries⟩
        rcases hA : W.extract s2 with ⟨sx, cA⟩
        cases cA with
        | error e2 =>
          obtain ⟨s3, b, hC⟩ := hcomp context task
            (steps ++ [ConversationStep.mk step_num action
              recordedActionResult context llm_response]) sx
          cases b with
          | true => exact ⟨_, by simp only [stepLoop, hE, hT, hA, hC]; rfl⟩
          | false =>
            obtain ⟨r, hrec⟩ := ih (step_num + 1)
              (steps ++ [ConversationStep.mk step_num action
                recordedActionResult context llm_response])
              (total_retries + retries) s3
            exact ⟨r, by simp only [stepLoop, hE, hT, hA, hC]; exact hrec⟩
        | ok contextAfter =>
          obtain ⟨s3, b, hC⟩ := hcomp contextAfter task
            (steps ++ [ConversationStep.mk step_num action
              recordedActionResult contextAfter llm_response]) sx
          cases b with
          | true => exact ⟨_, by simp only [stepLoop, hE, hT, hA, hC]; rfl⟩
          | false =>
            obtain ⟨r, hrec⟩ := ih (step_num + 1)
              (steps ++ [ConversationStep.mk step_num action
                recordedActionResult contextAfter llm_response])
              (total_retries + retries) s3
            exact ⟨r, by simp only [stepLoop, hE, hT, hA, hC]; exact hrec⟩

/-- Helper: every structured result of the step loop with
`task_completed = false` carries an error message. -/
theorem stepLoop_failure_error {σ : Type} (W : World σ) (task : String)
    (max_steps max_retries : Nat) (remaining : Nat) :
    ∀ (step_num : Nat) (steps : List ConversationStep)
      (total_retries : Nat) (s : σ) (r : MultiStepExecutionResult),
      (stepLoop W task max_steps max_retries remaining step_num steps
        total_retries s).2 = Except.ok r →
      r.task_completed = false → ∃ msg, r.error = some msg := by
  induction remaining with
  | zero =>
    intro step_num steps total_retries s r h _hf
    dsimp only [stepLoop] at h
    cases h
    exact ⟨_, rfl⟩
  | succ rem ih =>
    intro step_num steps total_retries s r h hf
    simp only [stepLoop] at h
    split at h
    · dsimp only at h
      cases h
      exact ⟨_, rfl⟩
    · split at h
      · dsimp only at h
        cases h
        exact ⟨_, rfl⟩
      · split at h
        · dsimp only at h
          cases h
        · dsimp only at h
          cases h
          exact absurd hf (by simp)
        · exact ih _ _ _ _ r h hf

/-- C2 (amended): as long as the completion-oracle exchange itself succeeds
(the transport of `is_task_complete` does not fail), `execute_multi_step`
returns a structured `MultiStepExecutionResult` on every path, and every
returned result with `task_completed = false` carries a human-readable
error string.  A transport failure of the completion-oracle call is the one
exception: it is propagated as `Err` (see the counterexample). -/
theorem C2_amended_structured_failure {σ : Type} (W : World σ)
    (task : String) (max_steps_arg max_retries_arg : Option Nat) (s : σ)
    (hcomp : ∀ (c : UIContext) (t : String) (st : List ConversationStep)
      (s0 : σ), ∃ s1 b, is_task_complete W c t st s0 = (s1, Except.ok b)) :
    (∃ r, (execute_multi_step W task max_steps_arg max_retries_arg s).2 =
      Except.ok r) ∧
    (∀ r, (execute_multi_step W task max_steps_arg max_retries_arg s).2 =
      Except.ok r → r.task_completed = false →
      ∃ msg, r.error = some msg) := by
  constructor
  · simp only [execute_multi_step]
    exact stepLoop_total W task _ _ hcomp _ _ _ _ _
  · intro r h hf
    simp only [execute_multi_step] at h
    exact stepLoop_failure_error W task _ _ _ _ _ _ _ r h hf

/-- Counterexample for C2 as stated: with a world whose first oracle call
(the decision) succeeds and whose second (the completion check) fails at the
transport level, `execute_multi_step` returns `Err` to its caller — the `?`
behind `is_task_complete` at executor.rs line 301 propagates the failure
instead of producing a structured result. -/
theorem C2_cex_completion_transport_err :
    execute_multi_step Wc2 "t" (some 5) (some 0) 0 =
      (2, Except.error "completion transport down") := by decide

/-- Witness for C2 (amended): for `Wfull` the completion check always
succeeds, so a structured result exists. -/
theorem C2_witness :
    ∃ r, (execute_multi_step Wfull "task" none none 0).2 = Except.ok r :=
  (C2_amended_structured_failure Wfull "task" none none 0
    (fun _c _t _st s0 => ⟨s0 + 1, true, rfl⟩)).1

/-- Helper: when no oracle reply parses as an action, the retry loop never
succeeds — every pass ends in a transport error or, after the final retry
index, the parse-failure message. -/
theorem tryLoop_parse_fail_error {σ : Type} (W : World σ)
    (hparse : ∀ t, ∃ e, W.parseAction t = Except.error e)
    (context : UIContext) (task sys : String) (mr : Nat) :
    ∀ (remaining retry : Nat) (prompt : String) (s : σ), ∃ s1 msg,
      tryActionLoop W context task sys mr retry remaining prompt s =
        (s1, Except.error msg) := by
  intro remaining
  induction remaining with
  | zero =>
    intro retry prompt s
    rcases hg : W.generate s sys prompt with ⟨s1, cg⟩
    cases cg with
    | error e => exact ⟨s1, e, by simp only [tryActionLoop, hg]⟩
    | ok t =>
      obtain ⟨e, hp⟩ := hparse t
      exact ⟨s1, _, by simp only [tryActionLoop, hg, hp]; rfl⟩
  | succ rem ih =>
    intro retry prompt s
    rcases hg : W.generate s sys prompt with ⟨s1, cg⟩
    cases cg with
    | error e => exact ⟨s1, e, by simp only [tryActionLoop, hg]⟩
    | ok t =>
      obtain ⟨e, hp⟩ := hparse t
      obtain ⟨s2, msg, hrec⟩ := ih (retry + 1) prompt s1
      refine ⟨s2, msg, ?_⟩
      unfold tryActionLoop
      rw [hg]
      simp [hp, hrec]

/-- Helper: with the oracle always answering and no answer parsing, the
retry loop makes exactly one oracle call per retry index — `remaining + 1`
calls, counted by the instrumented world — and fails with the parse
message. -/
theorem tryLoop_parse_fail_attempts {σ : Type} (W : World σ)
    (hgen : ∀ (s0 : σ) (sy us : String), ∃ s1 t,
      W.generate s0 sy us = (s1, Except.ok t))
    (hparse : ∀ t, ∃ e, W.parseAction t = Except.error e)
    (context : UIContext) (task sys : String) (mr : Nat) :
    ∀ (remaining retry : Nat) (prompt : String) (s : σ) (n : Nat),
      ∃ s1 e, tryActionLoop (countingWorld W) context task sys mr retry
        remaining prompt (s, n) =
        ((s1, n + (remaining + 1)),
          Except.error ("Failed to parse LLM response: " ++ e)) := by
  intro remaining
  induction remaining with
  | zero =>
    intro retry prompt s n
    obtain ⟨s1, t, hg⟩ := hgen s sys prompt
    obtain ⟨e, hp⟩ := hparse t
    have hgN : (countingWorld W).generate (s, n) sys prompt =
        ((s1, n + 1), Except.ok t) := by
      simp [countingWorld, hg]
    have hpN : (countingWorld W).parseAction t = Except.error e := hp
    refine ⟨s1, e, ?_⟩
    unfold tryActionLoop
    rw [hgN]
    simp [hpN]
  | succ rem ih =>
    intro retry prompt s n
    obtain ⟨s1, t, hg⟩ := hgen s sys prompt
    obtain ⟨e, hp⟩ := hparse t
    have hgN : (countingWorld W).generate (s, n) sys prompt =
        ((s1, n + 1), Except.ok t) := by
      simp [countingWorld, hg]
    have hpN : (countingWorld W).parseAction t = Except.error e := hp
    obtain ⟨s2, e2, hrec⟩ := ih (retry + 1) prompt s1 (n + 1)
    refine ⟨s2, e2, ?_⟩
    unfold tryActionLoop
    rw [hgN]
    have harith : n + 1 + (rem + 1) = n + (rem + 1 + 1) := by omega
    simp [hpN, hrec, harith]

/-- Helper: when no oracle reply parses, the whole run always ends in a
structured result with `task_completed = false` (the step engine can never
succeed, so neither the completion exit nor an `Err` from the completion
oracle is reachable). -/
theorem stepLoop_parse_fail_not_completed {σ : Type} (W : World σ)
    (hparse : ∀ t, ∃ e, W.parseAction t = Except.error e) (task : String)
    (max_steps max_retries : Nat) (remaining : Nat) :
    ∀ (step_num : Nat) (steps : List ConversationStep)
      (total_retries : Nat) (s : σ), ∃ r,
      (stepLoop W task max_steps max_retries remaining step_num steps
        total_retries s).2 = Except.ok r ∧ r.task_completed = false := by
  induction remaining with
  | zero =>
    intro step_num steps total_retries s
    exact ⟨_, rfl, rfl⟩
  | succ rem ih =>
    intro step_num steps total_retries s
    rcases hE : W.extract s with ⟨s1, cE⟩
    cases cE with
    | error e =>
      simp only [stepLoop, hE]
      exact ⟨_, rfl, rfl⟩
    | ok context =>
      obtain ⟨s2, msg, hT⟩ := tryLoop_parse_fail_error W hparse context task
        build_system_prompt max_retries max_retries 0
        (build_user_prompt context task) s1
      have hT2 : try_action_with_retry W context task build_system_prompt
          (build_user_prompt context task) max_retries s1 =
          (s2, Except.error msg) := hT
      simp only [stepLoop, hE, hT2]
      exact ⟨_, rfl, rfl⟩

/-- C5: if every oracle reply for a step fails to parse as an
`ActionRequest`, then (1) the step engine makes exactly
`max_retries_per_step + 1` oracle attempts (the instrumented counter rises
by `mr + 1`) and fails the step with a parse-error message, (2) a retry
after a parse failure reuses the very same prompt, and (3) every run under
such a world terminates with a structured result with
`task_completed = false`. -/
theorem C5_parse_failure_exhausts_attempts {σ : Type} (W : World σ)
    (context : UIContext) (task sys p : String) (mr : Nat)
    (hgen : ∀ (s0 : σ) (sy us : String), ∃ s1 t,
      W.generate s0 sy us = (s1, Except.ok t))
    (hparse : ∀ t, ∃ e, W.parseAction t = Except.error e) :
    (∀ (s : σ) (n : Nat), ∃ s1 e,
      try_action_with_retry (countingWorld W) context task sys p mr (s, n) =
        ((s1, n + (mr + 1)),
          Except.error ("Failed to parse LLM response: " ++ e))) ∧
    (∀ (retry rem : Nat) (prompt : String) (s s1 : σ) (txt e : String),
      W.generate s sys prompt = (s1, Except.ok txt) →
      W.parseAction txt = Except.error e →
      tryActionLoop W context task sys mr retry (rem + 1) prompt s =
        tryActionLoop W context task sys mr (retry + 1) rem prompt s1) ∧
    (∀ (tk : String) (ms mrArg : Option Nat) (s : σ), ∃ r,
      (execute_multi_step W tk ms mrArg s).2 = Except.ok r ∧
        r.task_completed = false) := by
  refine ⟨?_, ?_, ?_⟩
  · intro s n
    exact tryLoop_parse_fail_attempts W hgen hparse context task sys mr mr 0
      p s n
  · intro retry rem prompt s s1 txt e hg1 hp1
    nth_rewrite 1 [tryActionLoop.eq_def]
    rw [hg1]
    simp [hp1]
  · intro tk ms mrArg s
    simp only [execute_multi_step]
    exact stepLoop_parse_fail_not_completed W hparse tk _ _ _ 1 [] 0 s

/-- Witness for C5 with `WparseFail`: the instrumented engine run makes 4
attempts for `max_retries = 3`, and the concrete run fails structurally. -/
theorem C5_witness :
    (∃ s1 e, try_action_with_retry (countingWorld WparseFail) ctx0 "t" "sy"
      "p" 3 (0, 0) =
      ((s1, 0 + (3 + 1)),
        Except.error ("Failed to parse LLM response: " ++ e))) ∧
    (∃ r, (execute_multi_step WparseFail "t" (some 1) (some 2) 0).2 =
      Except.ok r ∧ r.task_completed = false) := by
  have h := C5_parse_failure_exhausts_attempts WparseFail ctx0 "t" "sy" "p" 3
    (fun s0 _sy _us => ⟨s0 + 1, "bad", rfl⟩)
    (fun _t => ⟨"not json", rfl⟩)
  exact ⟨h.1 0 0, h.2.2 "t" (some 1) (some 2) 0⟩

/-- Helper: if no completion reply parses, `is_task_complete` can never
return `Ok(true)` — parse failure is mapped to `Ok(false)` and a transport
failure to `Err`. -/
theorem is_task_complete_not_true {σ : Type} (W : World σ)
    (hpc : ∀ t, ∃ e, W.parseCompletion t = Except.error e)
    (c : UIContext) (t : String) (st : List ConversationStep) (s0 s1 : σ) :
    is_task_complete W c t st s0 ≠ (s1, Except.ok true) := by
  intro h
  rcases hg : W.generate s0 "You are a task completion evaluator."
      (completionPrompt W c t st) with ⟨sg, cg⟩
  cases cg with
  | error e =>
    simp only [is_task_complete, hg] at h
    simp at h
  | ok txt =>
    obtain ⟨e, hp⟩ := hpc txt
    simp only [is_task_complete, hg, hp] at h
    simp at h

/-- Helper: if no completion reply parses, every structured result of the
step loop has `task_completed = false` (the completion exit is
unreachable). -/
theorem stepLoop_completion_unparseable {σ : Type} (W : World σ)
    (hpc : ∀ t, ∃ e, W.parseCompletion t = Except.error e) (task : String)
    (max_steps max_retries : Nat) (remaining : Nat) :
    ∀ (step_num : Nat) (steps : List ConversationStep)
      (total_retries : Nat) (s : σ) (r : MultiStepExecutionResult),
      (stepLoop W task max_steps max_retries remaining step_num steps
        total_retries s).2 = Except.ok r →
      r.task_completed = false := by
  induction remaining with
  | zero =>
    intro step_num steps total_retries s r h
    dsimp only [stepLoop] at h
    cases h
    rfl
  | succ rem ih =>
    intro step_num steps total_retries s r h
    rcases hE : W.extract s with ⟨s1, cE⟩
    cases cE with
    | error e =>
      simp only [stepLoop, hE] at h
      cases h
      rfl
    | ok context =>
      rcases hT : try_action_with_retry W context task build_system_prompt
          (build_user_prompt context task) max_retries s1 with ⟨s2, cT⟩
      cases cT with
      | error e =>
        simp only [stepLoop, hE, hT] at h
        cases h
        rfl
      | ok triple =>
        rcases triple with ⟨action, llm_response, retries⟩
        rcases hA : W.extract s2 with ⟨sx, cA⟩
        cases cA with
        | error e2 =>
          simp only [stepLoop, hE, hT, hA] at h
          rcases hC : is_task_complete W context task
              (steps ++ [ConversationStep.mk step_num action
                recordedActionResult context llm_response]) sx with ⟨s3, cC⟩
          rw [hC] at h
          have hcc : cC ≠ Except.ok true := fun hh =>
            is_task_complete_not_true W hpc context task
              (steps ++ [ConversationStep.mk step_num action
                recordedActionResult context llm_response]) sx s3
              (hh ▸ hC)
          clear hC
          cases cC with
          | error e3 => simp at h
          | ok b =>
            cases b with
            | true => exact absurd rfl hcc
            | false =>
              dsimp only at h
              exact ih _ _ _ _ r h
        | ok contextAfter =>
          simp only [stepLoop, hE, hT, hA] at h
          rcases hC : is_task_complete W contextAfter task
              (steps ++ [ConversationStep.mk step_num action
                recordedActionResult contextAfter llm_response]) sx
            with ⟨s3, cC⟩
          rw [hC] at h
          have hcc : cC ≠ Except.ok true := fun hh =>
            is_task_complete_not_true W hpc contextAfter task
              (steps ++ [ConversationStep.mk step_num action
                recordedActionResult contextAfter llm_response]) sx s3
              (hh ▸ hC)
          clear hC
          cases cC with
          | error e3 => simp at h
          | ok b =>
            cases b with
            | true => exact absurd rfl hcc
            | false =>
              dsimp only at h
              exact ih _ _ _ _ r h

/-- C6: a completion-oracle reply that fails to parse as
`\x7b completed: bool, reason: string \x7d` never causes
`task_completed = true`: (1) when the completion call itself succeeds but
its reply does not parse, `is_task_complete` returns `Ok(false)`; (2)
consequently, under a world whose completion replies never parse, every
structured result of `execute_multi_step` has `task_completed = false` —
the controller proceeds step by step until the budget is exhausted. -/
theorem C6_completion_parse_failure_not_complete {σ : Type} (W : World σ)
    (hpc : ∀ t, ∃ e, W.parseCompletion t = Except.error e) :
    (∀ (c : UIContext) (t : String) (st : List ConversationStep)
      (s0 s1 : σ) (txt : String),
      W.generate s0 "You are a task completion evaluator."
        (completionPrompt W c t st) = (s1, Except.ok txt) →
      is_task_complete W c t st s0 = (s1, Except.ok false)) ∧
    (∀ (task : String) (ms mr : Option Nat) (s : σ)
      (r : MultiStepExecutionResult),
      (execute_multi_step W task ms mr s).2 = Except.ok r →
      r.task_completed = false) := by
  constructor
  · intro c t st s0 s1 txt hg
    obtain ⟨e, hp⟩ := hpc txt
    simp only [is_task_complete, hg, hp]
  · intro task ms mr s r h
    simp only [execute_multi_step] at h
    exact stepLoop_completion_unparseable W hpc task _ _ _ 1 [] 0 s r h

/-- Witness for C6: in `Wc3` no completion reply parses, and the completion
check on the empty history returns `Ok(false)`. -/
theorem C6_witness :
    is_task_complete Wc3 ctx0 "t" [] 0 = (1, Except.ok false) :=
  (C6_completion_parse_failure_not_complete Wc3
    (fun _t => ⟨"unparseable", rfl⟩)).1 ctx0 "t" [] 0 1 "g" rfl

/-- Substring containment at the character level: `small` occurs contiguously
inside `big`. -/
def strContains (big small : String) : Prop :=
  ∃ a b, big.data = a ++ small.data ++ b

/-- Appending at the character level. -/
theorem strDataAppend (s t : String) : (s ++ t).data = s.data ++ t.data :=
  rfl

/-- A string contains itself. -/
theorem strContains_self (s : String) : strContains s s :=
  ⟨[], [], by simp⟩

/-- The right part of an append is contained in the whole. -/
theorem strContains_suffix (x y : String) : strContains (x ++ y) y :=
  ⟨x.data, [], by simp [strDataAppend]⟩

/-- Containment survives appending on the right. -/
theorem strContains_extend_right (x y m : String) (h : strContains x m) :
    strContains (x ++ y) m := by
  obtain ⟨a, b, hd⟩ := h
  exact ⟨a, b ++ y.data, by simp [strDataAppend, hd]⟩

/-- Containment survives appending on the left. -/
theorem strContains_extend_left (x y m : String) (h : strContains y m) :
    strContains (x ++ y) m := by
  obtain ⟨a, b, hd⟩ := h
  exact ⟨x.data ++ a, b, by simp [strDataAppend, hd]⟩

/-- The retry prompt `try_action_with_retry` builds when an executed action
reports `success = false` and attempts remain (executor.rs lines 388-402):
serialized action, the `error ?? reason ?? "Action failed"` precedence, and
`suggestion ?? "Try a different approach"`. -/
def retryPromptOf (W : World σ) (context : UIContext) (task : String)
    (action : ActionRequest) (result : ActionResponse) : String :=
  build_retry_prompt context task (serializedAction W action)
    (result.error.getD (result.reason.getD "Action failed"))
    (result.suggestion.getD "Try a different approach")

/-- C4: when an executed action returns `success = false` while retry
attempts remain (`remaining = rem + 1`), the next attempt is issued with the
retry prompt built from the serialized failed action, the error message
chosen by the precedence `error ?? reason ?? "Action failed"`, and
`suggestion ?? "Try a different approach"`; that prompt contains, as literal
substrings, the effective suggestion (the oracle-provided `S` when present,
the default text otherwise), the serialized action, and the chosen error
message. -/
theorem C4_retry_prompt_feedback {σ : Type} (W : World σ)
    (context : UIContext) (task sys : String) (mr retry rem : Nat)
    (prompt : String) (s s1 s2 : σ) (txt : String)
    (action : ActionRequest) (result : ActionResponse)
    (hg : W.generate s sys prompt = (s1, Except.ok txt))
    (hp : W.parseAction txt = Except.ok action)
    (hx : W.execAction s1 action = (s2, Except.ok result))
    (hf : result.success = false) :
    tryActionLoop W context task sys mr retry (rem + 1) prompt s =
      tryActionLoop W context task sys mr (retry + 1) rem
        (retryPromptOf W context task action result) s2 ∧
    strContains (retryPromptOf W context task action result)
      (result.suggestion.getD "Try a different approach") ∧
    strContains (retryPromptOf W context task action result)
      (serializedAction W action) ∧
    strContains (retryPromptOf W context task action result)
      (result.error.getD (result.reason.getD "Action failed")) := by
  refine ⟨?_, ?_, ?_, ?_⟩
  · nth_rewrite 1 [tryActionLoop.eq_def]
    rw [hg]
    simp [hp, hx, hf, retryPromptOf]
  · simp only [retryPromptOf, build_retry_prompt]
    repeat
      first
        | exact strContains_suffix _ _
        | apply strContains_extend_right
  · simp only [retryPromptOf, build_retry_prompt]
    repeat
      first
        | exact strContains_suffix _ _
        | apply strContains_extend_right
  · simp only [retryPromptOf, build_retry_prompt]
    repeat
      first
        | exact strContains_suffix _ _
        | apply strContains_extend_right

/-- Failure response carrying the suggestion literal `S`. -/
def respSug : ActionResponse :=
  { success := false, error := some "boom", reason := some "r",
    suggestion := some "S", details := none }

/-- World whose browser rejects every action with `respSug`. -/
def Wc4 : World Nat :=
  { extract := fun s => (s, Except.ok ctx0)
    generate := fun s _sys _user => (s + 1, Except.ok "g")
    execAction := fun s _a => (s, Except.ok respSug)
    parseAction := fun _t => Except.ok act0
    parseCompletion := fun _t => Except.error "unparseable"
    serializeAction := fun _a => Except.ok "ser"
    debugFmt := fun _a => "dbg" }

/-- Witness for C4: with `Wc4` the rejected attempt re-prompts via the
retry template, and the retry prompt contains the oracle suggestion `S`. -/
theorem C4_witness :
    tryActionLoop Wc4 ctx0 "t" "sy" 3 0 (2 + 1) "p" 0 =
      tryActionLoop Wc4 ctx0 "t" "sy" 3 1 2
        (retryPromptOf Wc4 ctx0 "t" act0 respSug) 1 ∧
    strContains (retryPromptOf Wc4 ctx0 "t" act0 respSug) "S" :=
  have h := C4_retry_prompt_feedback Wc4 ctx0 "t" "sy" 3 0 2 "p" 0 1 1 "g"
    act0 respSug rfl rfl rfl rfl
  ⟨h.1, h.2.1⟩

/-- Helper: `dropWhile` never eats into a middle segment whose first
character falsifies the predicate. -/
theorem dropWhile_keeps_middle (p : Char → Bool) :
    ∀ (a m b : List Char) (c : Char) (rest : List Char),
      m = c :: rest → p c = false →
      ∃ a2, (a ++ m ++ b).dropWhile p = a2 ++ m ++ b := by
  intro a
  induction a with
  | nil =>
    intro m b c rest hm hc
    refine ⟨[], ?_⟩
    subst hm
    simp [List.dropWhile_cons, hc]
  | cons x xs ih =>
    intro m b c rest hm hc
    cases hpx : p x with
    | false =>
      refine ⟨x :: xs, ?_⟩
      simp [List.dropWhile_cons, hpx]
    | true =>
      obtain ⟨a2, h2⟩ := ih m b c rest hm hc
      refine ⟨a2, ?_⟩
      simpa [List.dropWhile_cons, hpx] using h2

/-- Helper: trimming preserves any infix whose first and last characters are
not whitespace — only whitespace at the two ends of the whole string can be
removed. -/
theorem rustTrim_contains (s m : String) (c d : Char)
    (mrest mpre : List Char)
    (hm1 : m.data = c :: mrest) (hc : c.isWhitespace = false)
    (hm2 : m.data = mpre ++ [d]) (hd : d.isWhitespace = false)
    (a b : List Char) (hs : s.data = a ++ m.data ++ b) :
    strContains (rustTrim s) m := by
  obtain ⟨a2, h1⟩ :=
    dropWhile_keeps_middle Char.isWhitespace a m.data b c mrest hm1 hc
  have hrev : (a2 ++ m.data ++ b).reverse =
      b.reverse ++ m.data.reverse ++ a2.reverse := by
    simp [List.reverse_append, List.append_assoc]
  have hm1r : m.data.reverse = d :: mpre.reverse := by
    rw [hm2]
    simp
  obtain ⟨b2, h2⟩ := dropWhile_keeps_middle Char.isWhitespace b.reverse
    m.data.reverse a2.reverse d mpre.reverse hm1r hd
  refine ⟨a2, b2.reverse, ?_⟩
  show (((s.data.dropWhile Char.isWhitespace).reverse.dropWhile
    Char.isWhitespace).reverse) = a2 ++ m.data ++ b2.reverse
  rw [hs, h1, hrev, h2]
  simp [List.reverse_append, List.append_assoc]

/-- Helper: the element loop of the prompt builders, at the character
level — a `join` of the per-element lines. -/
theorem elementsBlock_data (els : List SimplifiedElement) : ∀ (acc : String),
    (els.foldl (fun a e => a ++ elementLine e) acc).data =
      acc.data ++ (els.map (fun e => (elementLine e).data)).flatten := by
  induction els with
  | nil =>
    intro acc
    simp
  | cons e es ih =>
    intro acc
    simp only [List.foldl_cons, List.map_cons, List.flatten_cons]
    rw [ih]
    simp [strDataAppend, List.append_assoc]

/-- Helper: each element of the context contributes its line (sans the
trailing newline) as an infix of the rendered element block. -/
theorem elementsBlock_contains (els : List SimplifiedElement)
    (e : SimplifiedElement) (he : e ∈ els) :
    ∃ a b, (elementsBlock els).data =
      a ++ (e.display ++ " - in_viewport: " ++
        toString e.in_viewport).data ++ b := by
  obtain ⟨l1, l2, rfl⟩ := List.append_of_mem he
  refine ⟨(l1.map (fun x => (elementLine x).data)).flatten,
    Char.ofNat 10 :: (l2.map (fun x => (elementLine x).data)).flatten, ?_⟩
  simp only [elementsBlock, elementsBlock_data]
  simp [elementLine, strDataAppend, List.append_assoc]

/-- Helper: a display label produced by `SimplifiedElement::new` starts with
the bracket character. -/
theorem new_display_head (id : Nat) (role : String) (nm : Option String)
    (ivp : Bool) :
    ∃ rest, (SimplifiedElement.new id role nm ivp).display.data =
      Char.ofNat 91 :: rest := by
  cases nm with
  | none =>
    refine ⟨(toString id ++ "] " ++ role).data, ?_⟩
    simp [SimplifiedElement.new, strDataAppend, List.append_assoc]
  | some n =>
    refine ⟨(toString id ++ "] " ++ role ++ "(\x27" ++ n ++ "\x27)").data, ?_⟩
    simp [SimplifiedElement.new, strDataAppend, List.append_assoc]

/-- Helper: an element line without its newline ends with the final letter
of `true`/`false`. -/
theorem lineNoNl_last (e : SimplifiedElement) :
    ∃ pre, (e.display ++ " - in_viewport: " ++
      toString e.in_viewport).data = pre ++ [Char.ofNat 101] := by
  cases hiv : e.in_viewport with
  | true =>
    refine ⟨(e.display ++ " - in_viewport: ").data ++
      [Char.ofNat 116, Char.ofNat 114, Char.ofNat 117], ?_⟩
    simp [strDataAppend, List.append_assoc]
    decide
  | false =>
    refine ⟨(e.display ++ " - in_viewport: ").data ++
      [Char.ofNat 102, Char.ofNat 97, Char.ofNat 108, Char.ofNat 115], ?_⟩
    simp [strDataAppend, List.append_assoc]
    decide

/-- C7: the prompt builders are pure total functions — (1) byte-identical
output on identical inputs for `build_user_prompt`, (2) the display label of
`SimplifiedElement::new` has the documented format, (3) an empty element
list is valid input and renders as an empty list inside the same template
(no failure path exists), (4) the output contains the literal task string,
and (5) the output contains each element line `display - in_viewport: flag`
for every element built by `SimplifiedElement::new` (whose labels start with
a bracket and end with a letter, so `trim` cannot touch them). -/
theorem C7_prompt_builder_contract :
    (∀ (c1 c2 : UIContext) (t1 t2 : String), c1 = c2 → t1 = t2 →
      build_user_prompt c1 t1 = build_user_prompt c2 t2) ∧
    (∀ (id : Nat) (role nm : String) (ivp : Bool),
      (SimplifiedElement.new id role (some nm) ivp).display =
        "[" ++ toString id ++ "] " ++ role ++ "(\x27" ++ nm ++ "\x27)") ∧
    (∀ (context : UIContext) (task : String), context.elements = [] →
      build_user_prompt context task =
        "Current Page State:\nURL: " ++ context.url ++ "\nTitle: " ++
        context.title ++ "\nViewport: " ++
        toString context.viewport.width ++ "x" ++
        toString context.viewport.height ++ " (scroll: " ++
        toString context.viewport.scroll_x ++ ", " ++
        toString context.viewport.scroll_y ++
        ")\n\nAvailable Elements (Accessibility Tree):\n" ++ "" ++
        "\n\nYour Task: " ++ task ++
        "\n\nPlease provide the NEXT SINGLE ACTION to accomplish this task as a JSON object.") ∧
    (∀ (context : UIContext) (task : String),
      strContains (build_user_prompt context task) task) ∧
    (∀ (context : UIContext) (task : String) (e : SimplifiedElement),
      e ∈ context.elements →
      (∃ id role nm ivp, e = SimplifiedElement.new id role nm ivp) →
      strContains (build_user_prompt context task)
        (e.display ++ " - in_viewport: " ++ toString e.in_viewport)) := by
  refine ⟨?_, ?_, ?_, ?_, ?_⟩
  · intro c1 c2 t1 t2 hc ht
    rw [hc, ht]
  · intro id role nm ivp
    rfl
  · intro context task hempty
    simp only [build_user_prompt, hempty]
    rfl
  · intro context task
    simp only [build_user_prompt]
    apply strContains_extend_right
    exact strContains_suffix _ _
  · intro context task e he himg
    obtain ⟨id, role, nm, ivp, heq⟩ := himg
    subst heq
    obtain ⟨rest, hhead⟩ := new_display_head id role nm ivp
    have hm1 : ((SimplifiedElement.new id role nm ivp).display ++
        " - in_viewport: " ++
        toString (SimplifiedElement.new id role nm ivp).in_viewport).data =
        Char.ofNat 91 :: (rest ++ (" - in_viewport: ".data ++
          (toString
            (SimplifiedElement.new id role nm ivp).in_viewport).data)) := by
      simp [strDataAppend, hhead, List.append_assoc]
    obtain ⟨pre, hm2⟩ := lineNoNl_last (SimplifiedElement.new id role nm ivp)
    obtain ⟨a, b, hblock⟩ := elementsBlock_contains context.elements _ he
    have htrim := rustTrim_contains (elementsBlock context.elements)
      ((SimplifiedElement.new id role nm ivp).display ++ " - in_viewport: "
        ++ toString (SimplifiedElement.new id role nm ivp).in_viewport)
      (Char.ofNat 91) (Char.ofNat 101) _ pre hm1 (by decide) hm2 (by decide)
      a b hblock
    simp only [build_user_prompt]
    apply strContains_extend_right
    apply strContains_extend_right
    apply strContains_extend_right
    apply strContains_extend_left
    exact htrim

/-- One concrete element for the C7 witness. -/
def elemW : SimplifiedElement := SimplifiedElement.new 1 "button"
  (some "Login") true

/-- The viewport of the C7 witness context. -/
def vpW : Viewport :=
  { width := 1280, height := 720, scroll_x := 0, scroll_y := 0 }

/-- One concrete page context for the C7 witness. -/
def ctxW : UIContext :=
  { url := "http://localhost:3000", title := "Test Page", viewport := vpW,
    elements := [elemW] }

/-- Witness for C7 on a concrete context: the user prompt contains the task
and the element line, and the display label has the documented format. -/
theorem C7_witness :
    strContains (build_user_prompt ctxW "Click the login button")
      "Click the login button" ∧
    strContains (build_user_prompt ctxW "Click the login button")
      (elemW.display ++ " - in_viewport: " ++ toString elemW.in_viewport) ∧
    elemW.display = "[1] button(\x27Login\x27)" :=
  have h := C7_prompt_builder_contract
  ⟨h.2.2.2.1 ctxW "Click the login button",
   h.2.2.2.2 ctxW "Click the login button" elemW
     (by simp [ctxW]) ⟨1, "button", some "Login", true, rfl⟩,
   by decide⟩

/-- Counterexample for C8 as stated: the claim promises
`down -> (0, +amount)` for every amount, but `amount` is a `u32` and the
source computes `amount as i32` (automation.rs line 192), which wraps: for
`amount = 2^31 = 2147483648` the scroll-down delta is `(0, -2147483648)`,
not `(0, +2147483648)`. -/
theorem C8_cex_i32_wrap :
    scrollDeltas ScrollDirection.Down 2147483648 = (0, -2147483648) ∧
    scrollDeltas ScrollDirection.Down 2147483648 ≠
      (0, (2147483648 : Int)) := by
  constructor
  · decide
  · decide

/-- C8 (amended): for every `amount` within `i32` range
(`amount < 2^31`), the scroll mapping is exact — `down -> (0, +amount)`,
`up -> (0, -amount)`, `right -> (+amount, 0)`, `left -> (-amount, 0)` — and
an absent amount defaults to 300; for `amount >= 2^31` the `u32 -> i32`
cast wraps (see the counterexample). -/
theorem C8_amended_scroll_mapping (amount : Nat)
    (h : amount < 2147483648) :
    scrollDeltas ScrollDirection.Down amount = (0, (amount : Int)) ∧
    scrollDeltas ScrollDirection.Up amount = (0, -(amount : Int)) ∧
    scrollDeltas ScrollDirection.Right amount = ((amount : Int), 0) ∧
    scrollDeltas ScrollDirection.Left amount = (-(amount : Int), 0) ∧
    (∀ d, scrollDeltasDispatch d none = scrollDeltas d 300) ∧
    (∀ d a, scrollDeltasDispatch d (some a) = scrollDeltas d a) := by
  have hA : asI32 amount = (amount : Int) := by
    unfold asI32
    rw [Nat.mod_eq_of_lt (by omega)]
    simp [h]
  have hN : i32Neg ((amount : Int)) = -(amount : Int) := by
    unfold i32Neg
    omega
  refine ⟨?_, ?_, ?_, ?_, ?_, ?_⟩
  · simp [scrollDeltas, hA]
  · simp [scrollDeltas, hA, hN]
  · simp [scrollDeltas, hA]
  · simp [scrollDeltas, hA, hN]
  · intro d
    simp [scrollDeltasDispatch]
  · intro d a
    simp [scrollDeltasDispatch]

/-- Witness for C8 (amended) at the default amount 300. -/
theorem C8_witness :
    300 < 2147483648 ∧
    scrollDeltas ScrollDirection.Down 300 = (0, 300) ∧
    scrollDeltasDispatch ScrollDirection.Down none =
      scrollDeltas ScrollDirection.Down 300 :=
  have h := C8_amended_scroll_mapping 300 (by decide)
  ⟨by decide, h.1, h.2.2.2.2.1 ScrollDirection.Down⟩

/-- C9: for the element-targeting state-changing actions (`click`,
`type_text`) on a found element, visibility is checked first and
enabled-state second, each short-circuiting with its dedicated response
before any browser interaction: an invisible element yields
`element_not_visible` *whatever* `is_element_enabled` would have said (so
an element both invisible and disabled reports `element_not_visible`, never
`element_not_enabled`), and a visible-but-disabled element yields
`element_not_enabled`. -/
theorem C9_visibility_before_enabled {ε σ : Type} (P : PageOps ε σ)
    (selector : SemanticSelector) (text : String) (s s1 s2 s3 : σ) (el : ε)
    (hfind : P.find_element s selector = (s1, Except.ok (some el))) :
    (P.is_element_visible s1 el = (s2, Except.ok false) →
      click P selector s =
        (s2, Except.ok (ActionResponse.element_not_visible
          (selector.name.getD "unknown") selector.role)) ∧
      type_text P selector text s =
        (s2, Except.ok (ActionResponse.element_not_visible
          (selector.name.getD "unknown") selector.role))) ∧
    (P.is_element_visible s1 el = (s2, Except.ok true) →
      P.is_element_enabled s2 el = (s3, Except.ok false) →
      click P selector s =
        (s3, Except.ok (ActionResponse.element_not_enabled
          (selector.name.getD "unknown"))) ∧
      type_text P selector text s =
        (s3, Except.ok (ActionResponse.element_not_enabled
          (selector.name.getD "unknown")))) := by
  constructor
  · intro hv
    constructor
    · simp [click, hfind, hv]
    · simp [type_text, hfind, hv]
  · intro hv he
    constructor
    · simp [click, hfind, hv, he]
    · simp [type_text, hfind, hv, he]

/-- Page operations for the C9 witness: the element is found but is both
invisible and disabled. -/
def pageOpsW : PageOps Unit Unit :=
  { find_element := fun _ _ => ((), Except.ok (some ()))
    is_element_visible := fun _ _ => ((), Except.ok false)
    is_element_enabled := fun _ _ => ((), Except.ok false)
    click_element := fun _ _ => ((), Except.ok ())
    press_key := fun _ _ _ => ((), Except.ok ())
    type_str := fun _ _ _ => ((), Except.ok ()) }

/-- Selector for the C9 witness. -/
def selW : SemanticSelector :=
  { role := "button", name := some "Login", description := none,
    css_fallback := none }

/-- Witness for C9: an element that is both invisible and disabled yields
`element_not_visible`, never `element_not_enabled`, for click and type. -/
theorem C9_witness :
    click pageOpsW selW () =
      ((), Except.ok (ActionResponse.element_not_visible "Login"
        "button")) ∧
    type_text pageOpsW selW "x" () =
      ((), Except.ok (ActionResponse.element_not_visible "Login"
        "button")) :=
  have h := (C9_visibility_before_enabled pageOpsW selW "x" () () () () ()
    rfl).1 rfl
  ⟨h.1, h.2⟩

end InteractUI
